import Mathlib

/-!
Shallow embedding of the background tasks of `temba/flows/tasks.py`
(expiry sweeper, timeout sweeper, count squashing, flow-stat cache
accuracy check and recompute), together with theorems settling the
claims about them.  Timestamps are natural numbers; the redis lock
store is the set of currently-held keys; the event dispatch queue is
a list that publishing appends to.
-/

namespace RapidPro

/-- Exit types of a flow run (`FlowRun.EXIT_TYPE_*` in `temba.flows.models`):
`unset` models a null exit type (run never exited). -/
inductive ExitType where
  | unset
  | completed
  | expired
  | interrupted
deriving DecidableEq, Repr

/-- One execution instance of a flow for one contact, with the fields the
tasks of `tasks.py` read or write: activation flag, nullable expiry and
timeout deadlines, exit type, owning flow and org, and whether the contact
is a test contact (used by the stats queries). -/
structure FlowRun where
  id : Nat
  org_id : Nat
  flow_id : Nat
  contact_is_test : Bool
  is_active : Bool
  expires_on : Option Nat
  timeout_on : Option Nat
  exit_type : ExitType
deriving DecidableEq, Repr

/-- Modelled from the spec: the event-queue name constant `HANDLER_QUEUE`
from `temba.msgs.models` (not under src/); the spec calls it the fixed
"handler" queue. -/
def HANDLER_QUEUE : String := "handler"

/-- Modelled from the spec: the task-type constant `HANDLE_EVENT_TASK`
from `temba.msgs.models` (not under src/); the spec calls it the fixed
"handle event" task type. -/
def HANDLE_EVENT_TASK : String := "handle_event"

/-- Modelled from the spec: the payload-type constant `TIMEOUT_EVENT`
from `temba.msgs.models` (not under src/); the spec gives the payload as
`{type: "timeout", run: <run id>, timeout_on: <deadline>}`. -/
def TIMEOUT_EVENT : String := "timeout"

/-- One tuple published to the Event Dispatch Queue by
`push_task(org, queue, task_type, payload)`: the addressing triple plus
the payload fields of the timeout payload dict. -/
structure Event where
  org : Nat
  queue : String
  taskType : String
  payloadType : String
  payloadRun : Nat
  payloadTimeoutOn : Option Nat
deriving DecidableEq, Repr

/-- The shared state the tasks act on: the run store, the held redis lock
keys, the event dispatch queue, the squashable run counters (unsquashed
increment rows and squashed aggregate rows, both `(flow_id, count)`), the
cached stats (`(flow_id, runs_started_count)`), the error log (entries
`(flow_id, cached, actual)` recording a logged discrepancy) and the set of
flow ids a recompute task has been scheduled for (`.delay` calls). -/
structure State where
  runs : List FlowRun
  locks : List String
  events : List Event
  unsquashed : List (Nat × Int)
  squashed : List (Nat × Int)
  cache : List (Nat × Int)
  logs : List (Nat × Int × Int)
  scheduled : List Nat
deriving DecidableEq, Repr

/-- Lock key of the expiry sweeper (`key = 'check_flows'`). -/
def LOCK_CHECK_FLOWS : String := "check_flows"

/-- Lock key of the timeout sweeper (`key = 'check_flow_timeouts'`). -/
def LOCK_CHECK_FLOW_TIMEOUTS : String := "check_flow_timeouts"

/-- Lock key of the squash task (`key = 'squash_flowruncounts'`). -/
def LOCK_SQUASH_FLOWRUNCOUNTS : String := "squash_flowruncounts"

/-- The queryset filter `is_active=True, expires_on__lte=timezone.now()`:
a run with a null `expires_on` is not matched by `__lte`. -/
def dueForExpiry (now : Nat) (r : FlowRun) : Bool :=
  r.is_active && (match r.expires_on with
    | some t => decide (t ≤ now)
    | none => false)

/-- The queryset filter `is_active=True, timeout_on__lte=timezone.now()`:
a run with a null `timeout_on` is not matched by `__lte`. -/
def dueForTimeout (now : Nat) (r : FlowRun) : Bool :=
  r.is_active && (match r.timeout_on with
    | some t => decide (t ≤ now)
    | none => false)

/-- Modelled from the spec: `FlowRun.bulk_exit(runs, exit_type)` from
`temba.flows.models` (not under src/): "marks all matched runs inactive
with exit type ... in a single logical operation".  The matched set is the
lazily-evaluated queryset, here the selection predicate. -/
def bulk_exit (sel : FlowRun → Bool) (et : ExitType) (runs : List FlowRun) :
    List FlowRun :=
  runs.map (fun r =>
    if sel r then { r with is_active := false, exit_type := et } else r)

/-- `check_flows_task`: skip if the `check_flows` key is already set,
otherwise bulk-exit every active run whose expiry deadline has passed. -/
def check_flows_task (s : State) (now : Nat) : State :=
  if s.locks.contains LOCK_CHECK_FLOWS then s
  else { s with runs := bulk_exit (dueForExpiry now) ExitType.expired s.runs }

/-- The event `push_task(run.org_id, HANDLER_QUEUE, HANDLE_EVENT_TASK,
dict(type=TIMEOUT_EVENT, run=run.id, timeout_on=run.timeout_on))` publishes
for one run. -/
def timeoutEvent (r : FlowRun) : Event :=
  { org := r.org_id
    queue := HANDLER_QUEUE
    taskType := HANDLE_EVENT_TASK
    payloadType := TIMEOUT_EVENT
    payloadRun := r.id
    payloadTimeoutOn := r.timeout_on }

/-- `check_flow_timeouts_task`: skip if the `check_flow_timeouts` key is
already set, otherwise publish one handler-queue event per active run whose
timeout deadline has passed.  Run state is never written. -/
def check_flow_timeouts_task (s : State) (now : Nat) : State :=
  if s.locks.contains LOCK_CHECK_FLOW_TIMEOUTS then s
  else { s with
    events := s.events ++ (s.runs.filter (dueForTimeout now)).map timeoutEvent }

/-- The publish loop of `check_flow_timeouts_task` when `push_task` may
raise: `fail r.id = true` means the publish call for that run raises.  A
raised exception propagates out of the bare `for` loop, so iteration stops
at the first failing run; events already pushed persist.  Returns the
events actually published and whether the loop completed without an
exception. -/
def publishLoop (fail : Nat → Bool) : List FlowRun → List Event × Bool
  | [] => ([], true)
  | r :: rest =>
      if fail r.id then ([], false)
      else
        let p := publishLoop fail rest
        (timeoutEvent r :: p.1, p.2)

/-- `check_flow_timeouts_task` under a per-run publish fault model: same
lock guard and selection, publishing via `publishLoop`.  The `Bool` part
records whether the invocation finished without an exception. -/
def check_flow_timeouts_task_faulty (fail : Nat → Bool) (s : State)
    (now : Nat) : State × Bool :=
  if s.locks.contains LOCK_CHECK_FLOW_TIMEOUTS then (s, true)
  else
    let p := publishLoop fail (s.runs.filter (dueForTimeout now))
    ({ s with events := s.events ++ p.1 }, p.2)

/-- Add an increment to the aggregate row of its flow (creating the row if
absent). -/
def addCount (sq : List (Nat × Int)) (fid : Nat) (n : Int) : List (Nat × Int) :=
  match sq with
  | [] => [(fid, n)]
  | (f, v) :: rest =>
      if f = fid then (f, v + n) :: rest else (f, v) :: addCount rest fid n

/-- Modelled from the spec: `FlowRunCount.squash_counts` from
`temba.flows.models` (not under src/): "collapse all unsquashed per-flow
run-counter increments into aggregate rows". -/
def squash_counts (unsq sq : List (Nat × Int)) : List (Nat × Int) :=
  unsq.foldl (fun acc p => addCount acc p.1 p.2) sq

/-- `squash_flowruncounts`: skip if the `squash_flowruncounts` key is
already set, otherwise collapse all unsquashed increments into the
aggregate rows. -/
def squash_flowruncounts (s : State) : State :=
  if s.locks.contains LOCK_SQUASH_FLOWRUNCOUNTS then s
  else { s with
    unsquashed := []
    squashed := squash_counts s.unsquashed s.squashed }

/-- `r.get(flow.get_stats_cache_key(FlowStatsCache.runs_started_count))`:
look up the cached runs-started count of a flow, `none` when the key is
absent. -/
def cacheGet (cache : List (Nat × Int)) (fid : Nat) : Option Int :=
  (cache.find? (fun p => p.1 = fid)).map (fun p => p.2)

/-- `runs_started_cached = 0 if runs_started_cached is None else int(...)`:
an absent cache entry reads as 0. -/
def cachedOrZero (cache : List (Nat × Int)) (fid : Nat) : Int :=
  match cacheGet cache fid with
  | none => 0
  | some v => v

/-- `flow.runs.filter(contact__is_test=False).count()`: the authoritative
runs-started count, all runs of the flow whose contact is not a test
contact (no activity filter). -/
def runsStarted (runs : List FlowRun) (fid : Nat) : Nat :=
  (runs.filter (fun r => r.flow_id = fid && !r.contact_is_test)).length

/-- Overwrite (or create) the cache entry of a flow. -/
def cacheSet (cache : List (Nat × Int)) (fid : Nat) (v : Int) :
    List (Nat × Int) :=
  match cache with
  | [] => [(fid, v)]
  | (f, w) :: rest =>
      if f = fid then (f, v) :: rest else (f, w) :: cacheSet rest fid v

/-- Modelled from the spec: `Flow.do_calculate_flow_stats` from
`temba.flows.models` (not under src/): "re-derive the cached value from
the authoritative source and overwrite the cache". -/
def do_calculate_flow_stats (s : State) (fid : Nat) : State :=
  { s with cache := cacheSet s.cache fid (runsStarted s.runs fid) }

/-- `calculate_flow_stats_task`: read the cached value (absent reads as 0)
and the authoritative count, and recompute the cache only if they still
differ. -/
def calculate_flow_stats_task (s : State) (fid : Nat) : State :=
  let cached := cachedOrZero s.cache fid
  let started : Int := runsStarted s.runs fid
  if started ≠ cached then do_calculate_flow_stats s fid else s

/-- `check_flow_stats_accuracy_task`: read the cached value (absent reads
as 0) and the authoritative count; on mismatch, log the discrepancy and
schedule `calculate_flow_stats_task.delay(flow.pk)`.  The cache itself is
never written. -/
def check_flow_stats_accuracy_task (s : State) (fid : Nat) : State :=
  let cached := cachedOrZero s.cache fid
  let started : Int := runsStarted s.runs fid
  if started ≠ cached then
    { s with
      logs := s.logs ++ [(fid, cached, started)]
      scheduled := s.scheduled ++ [fid] }
  else s

/-! ## Example states used by witnesses and counterexamples -/

/-- An active run of flow 1 with both deadlines at time 5. -/
def runDue1 : FlowRun :=
  { id := 1, org_id := 7, flow_id := 1, contact_is_test := false,
    is_active := true, expires_on := some 5, timeout_on := some 5,
    exit_type := ExitType.unset }

/-- A second active run of flow 1 with both deadlines at time 6. -/
def runDue2 : FlowRun :=
  { id := 2, org_id := 7, flow_id := 1, contact_is_test := false,
    is_active := true, expires_on := some 6, timeout_on := some 6,
    exit_type := ExitType.unset }

/-- An inactive (completed) run of flow 1 for a non-test contact. -/
def runGone : FlowRun :=
  { id := 3, org_id := 7, flow_id := 1, contact_is_test := false,
    is_active := false, expires_on := none, timeout_on := none,
    exit_type := ExitType.completed }

/-- A state with no locks held, two due runs and empty queues. -/
def stFree : State :=
  { runs := [runDue1, runDue2], locks := [], events := [],
    unsquashed := [], squashed := [], cache := [], logs := [],
    scheduled := [] }

/-- A state in which another holder holds every sweeper lock. -/
def stLocked : State :=
  { runs := [runDue1, runDue2],
    locks := [LOCK_CHECK_FLOWS, LOCK_CHECK_FLOW_TIMEOUTS,
              LOCK_SQUASH_FLOWRUNCOUNTS],
    events := [], unsquashed := [(1, 1)], squashed := [], cache := [],
    logs := [], scheduled := [] }

/-! ## Helper lemmas -/

/-- Exiting a run that `dueForExpiry` matches makes it inactive, so the
exit step is pointwise idempotent. -/
theorem exitStep_idem (now : Nat) (r : FlowRun) :
    (fun r => if dueForExpiry now r then
        { r with is_active := false, exit_type := ExitType.expired }
      else r)
    ((fun r => if dueForExpiry now r then
        { r with is_active := false, exit_type := ExitType.expired }
      else r) r) =
    (fun r => if dueForExpiry now r then
        { r with is_active := false, exit_type := ExitType.expired }
      else r) r := by
  by_cases h : dueForExpiry now r
  · simp only [h, if_true]
    have : dueForExpiry now
        { r with is_active := false, exit_type := ExitType.expired } = false := by
      simp [dueForExpiry]
    simp [this]
  · simp only [Bool.not_eq_true] at h
    simp [h]

/-- The expiry bulk-exit is idempotent: already-exited runs are no longer
matched by `dueForExpiry`, so a second pass changes nothing. -/
theorem bulk_exit_expired_idem (now : Nat) (l : List FlowRun) :
    bulk_exit (dueForExpiry now) ExitType.expired
      (bulk_exit (dueForExpiry now) ExitType.expired l) =
    bulk_exit (dueForExpiry now) ExitType.expired l := by
  unfold bulk_exit
  rw [List.map_map]
  exact List.map_congr_left (fun r _ => exitStep_idem now r)

/-- The expiry sweeper never changes the held-locks store. -/
theorem check_flows_task_locks (s : State) (now : Nat) :
    (check_flows_task s now).locks = s.locks := by
  unfold check_flows_task
  split <;> rfl

/-- C8: running the expiry sweeper twice in succession (same clock reading,
no runs created in between) leaves the whole state exactly as after the
first invocation: exited runs are inactive and so no longer matched, so no
run transitions twice and no exit type is overwritten. -/
theorem check_flows_task_idempotent (s : State) (now : Nat) :
    check_flows_task (check_flows_task s now) now = check_flows_task s now := by
  by_cases h : s.locks.contains LOCK_CHECK_FLOWS = true
  · have h1 : check_flows_task s now = s := by
      unfold check_flows_task
      rw [if_pos h]
    rw [h1]
    exact h1
  · have h1 : check_flows_task s now =
        { s with runs := bulk_exit (dueForExpiry now) ExitType.expired s.runs } := by
      unfold check_flows_task
      rw [if_neg h]
    conv_lhs => rw [check_flows_task, check_flows_task_locks s now, if_neg h, h1]
    rw [h1, bulk_exit_expired_idem]

/-- C1: when the expiry sweeper finds its lock free, every run that is
active with an expiry deadline at or before the current time is exited
(made inactive with exit type "expired"), and every other run — inactive,
no deadline, or future deadline — is left exactly as it was. -/
theorem check_flows_task_selects_due (s : State) (now : Nat)
    (h : s.locks.contains LOCK_CHECK_FLOWS = false) :
    (∀ i : Nat, ((check_flows_task s now).runs)[i]? =
      (s.runs[i]?).map (fun r =>
        if dueForExpiry now r then
          { r with is_active := false, exit_type := ExitType.expired }
        else r))
    ∧ (∀ r : FlowRun, dueForExpiry now r = true ↔
        r.is_active = true ∧ ∃ t, r.expires_on = some t ∧ t ≤ now) := by
  constructor
  · intro i
    unfold check_flows_task
    rw [if_neg (by rw [h]; exact Bool.false_ne_true)]
    unfold bulk_exit
    apply List.getElem?_map
  · intro r
    unfold dueForExpiry
    cases hx : r.expires_on with
    | none => simp [hx]
    | some t =>
        simp only [Bool.and_eq_true, decide_eq_true_eq]
        constructor
        · exact fun ⟨ha, ht⟩ => ⟨ha, t, rfl, ht⟩
        · rintro ⟨ha, u, hu, hle⟩
          cases hu
          exact ⟨ha, hle⟩

/-- Witness for C1 at a concrete state: with the lock free at time 5, the
run due at 5 is exited as expired and the run due at 6 is untouched. -/
theorem check_flows_task_selects_due_witness :
    (check_flows_task stFree 5).runs[0]? =
      some { runDue1 with is_active := false, exit_type := ExitType.expired }
    ∧ (check_flows_task stFree 5).runs[1]? = some runDue2 := by
  have h := check_flows_task_selects_due stFree 5 (by decide)
  refine ⟨?_, ?_⟩
  · rw [h.1 0]; decide
  · rw [h.1 1]; decide

/-- C2: when the timeout sweeper finds its lock free, it appends to the
event queue exactly one event per active run whose timeout deadline is at
or before now (a deadline equal to now is selected, one unit in the future
is not), each addressed by the run's org to the "handler" queue with the
"handle_event" task type and payload `{type: "timeout", run: <id>,
timeout_on: <deadline>}`. -/
theorem check_flow_timeouts_task_events (s : State) (now : Nat)
    (h : s.locks.contains LOCK_CHECK_FLOW_TIMEOUTS = false) :
    (check_flow_timeouts_task s now).events =
      s.events ++ (s.runs.filter (dueForTimeout now)).map timeoutEvent
    ∧ (∀ r : FlowRun, dueForTimeout now r = true ↔
        r.is_active = true ∧ ∃ t, r.timeout_on = some t ∧ t ≤ now)
    ∧ (∀ r : FlowRun, r.is_active = true → r.timeout_on = some now →
        dueForTimeout now r = true)
    ∧ (∀ r : FlowRun, r.timeout_on = some (now + 1) →
        dueForTimeout now r = false)
    ∧ (∀ r : FlowRun, timeoutEvent r =
        { org := r.org_id, queue := "handler", taskType := "handle_event",
          payloadType := "timeout", payloadRun := r.id,
          payloadTimeoutOn := r.timeout_on }) := by
  refine ⟨?_, ?_, ?_, ?_, ?_⟩
  · unfold check_flow_timeouts_task
    rw [if_neg (by rw [h]; exact Bool.false_ne_true)]
  · intro r
    unfold dueForTimeout
    cases hx : r.timeout_on with
    | none => simp [hx]
    | some t =>
        simp only [Bool.and_eq_true, decide_eq_true_eq]
        constructor
        · exact fun ⟨ha, ht⟩ => ⟨ha, t, rfl, ht⟩
        · rintro ⟨ha, u, hu, hle⟩
          cases hu
          exact ⟨ha, hle⟩
  · intro r ha ht
    unfold dueForTimeout
    rw [ha, ht]
    simp
  · intro r ht
    unfold dueForTimeout
    rw [ht]
    simp
  · intro r
    rfl

/-- Witness for C2 at a concrete state: at time 5 the run with deadline 5
gets exactly one handler-queue event and the run with deadline 6 gets
none. -/
theorem check_flow_timeouts_task_events_witness :
    (check_flow_timeouts_task stFree 5).events =
      [{ org := 7, queue := "handler", taskType := "handle_event",
         payloadType := "timeout", payloadRun := 1,
         payloadTimeoutOn := some 5 }] := by
  have h := check_flow_timeouts_task_events stFree 5 (by decide)
  rw [h.1]
  rfl

/-- C3: a sweeper whose named lock is already held by another holder is a
strict no-op: the state it returns is the state it was given (no run
mutated, no event published), and it returns without error (the functions
are total). -/
theorem locked_sweeper_noop (s : State) (now : Nat) :
    (s.locks.contains LOCK_CHECK_FLOWS = true → check_flows_task s now = s)
    ∧ (s.locks.contains LOCK_CHECK_FLOW_TIMEOUTS = true →
        check_flow_timeouts_task s now = s) := by
  refine ⟨fun h => ?_, fun h => ?_⟩
  · unfold check_flows_task
    rw [if_pos h]
  · unfold check_flow_timeouts_task
    rw [if_pos h]

/-- Witness for C3 at a concrete state in which another holder holds both
sweeper locks: both sweepers return the state unchanged. -/
theorem locked_sweeper_noop_witness :
    check_flows_task stLocked 99 = stLocked
    ∧ check_flow_timeouts_task stLocked 99 = stLocked :=
  ⟨(locked_sweeper_noop stLocked 99).1 (by decide),
   (locked_sweeper_noop stLocked 99).2 (by decide)⟩

/-- C9: the timeout sweeper mutates no run state and nothing else in the
store: runs, locks, counters, cache, logs and scheduled tasks are all
unchanged, and its only effect is appending published events to the event
dispatch queue; this also holds for the run store under the per-run
publish fault model. -/
theorem check_flow_timeouts_task_frame (s : State) (now : Nat)
    (fail : Nat → Bool) :
    (check_flow_timeouts_task s now).runs = s.runs
    ∧ (check_flow_timeouts_task s now).locks = s.locks
    ∧ (check_flow_timeouts_task s now).unsquashed = s.unsquashed
    ∧ (check_flow_timeouts_task s now).squashed = s.squashed
    ∧ (check_flow_timeouts_task s now).cache = s.cache
    ∧ (check_flow_timeouts_task s now).logs = s.logs
    ∧ (check_flow_timeouts_task s now).scheduled = s.scheduled
    ∧ (∃ published, (check_flow_timeouts_task s now).events =
        s.events ++ published)
    ∧ (check_flow_timeouts_task_faulty fail s now).1.runs = s.runs := by
  unfold check_flow_timeouts_task check_flow_timeouts_task_faulty
  refine ⟨?_, ?_, ?_, ?_, ?_, ?_, ?_, ?_, ?_⟩ <;>
    first
      | (split <;> rfl)
      | (split
         · exact ⟨[], by simp⟩
         · exact ⟨_, rfl⟩)

/-- The total count a flow's rows represent in a `(flow_id, count)` table:
the sum of the counts of its rows. -/
def lookupTotal (l : List (Nat × Int)) (fid : Nat) : Int :=
  ((l.filter (fun p => p.1 = fid)).map (fun p => p.2)).sum

/-- A state with no locks held and some unsquashed counter increments. -/
def stCounts : State :=
  { runs := [], locks := [], events := [],
    unsquashed := [(1, 2), (2, 3), (1, 4)], squashed := [(1, 10)],
    cache := [], logs := [], scheduled := [] }

/-- Splitting a counter table at its head row. -/
theorem lookupTotal_cons (p : Nat × Int) (l : List (Nat × Int)) (fid : Nat) :
    lookupTotal (p :: l) fid =
      (if p.1 = fid then p.2 else 0) + lookupTotal l fid := by
  unfold lookupTotal
  by_cases h : p.1 = fid <;> simp [List.filter_cons, h]

/-- `addCount` adds the increment to the target flow's total and leaves
every other flow's total alone. -/
theorem lookupTotal_addCount (sq : List (Nat × Int)) (f : Nat) (n : Int)
    (fid : Nat) :
    lookupTotal (addCount sq f n) fid =
      lookupTotal sq fid + (if f = fid then n else 0) := by
  induction sq with
  | nil =>
      by_cases h : f = fid <;> simp [addCount, lookupTotal, h]
  | cons q rest ih =>
      obtain ⟨g, v⟩ := q
      by_cases hgf : g = f
      · subst hgf
        rw [addCount, if_pos rfl, lookupTotal_cons, lookupTotal_cons]
        by_cases h : g = fid
        · simp [h]
          ring
        · simp [h]
      · rw [addCount, if_neg hgf, lookupTotal_cons, lookupTotal_cons, ih]
        ring

/-- Squashing conserves every flow's total: afterwards the aggregate holds
the old aggregate plus the sum of that flow's unsquashed increments. -/
theorem lookupTotal_squash_counts (unsq sq : List (Nat × Int)) (fid : Nat) :
    lookupTotal (squash_counts unsq sq) fid =
      lookupTotal sq fid + lookupTotal unsq fid := by
  induction unsq generalizing sq with
  | nil => simp [squash_counts, lookupTotal]
  | cons p rest ih =>
      simp only [squash_counts, List.foldl_cons] at ih ⊢
      rw [ih (addCount sq p.1 p.2), lookupTotal_addCount, lookupTotal_cons]
      ring

/-- Counterexample to C4: with the `squash_flowruncounts` lock held by
another holder and a pending unsquashed increment, the invocation performs
no collapse at all — the squash task is not unconditional. -/
theorem squash_flowruncounts_guard_counterexample :
    stLocked.unsquashed = [(1, 1)]
    ∧ squash_flowruncounts stLocked = stLocked
    ∧ (squash_flowruncounts stLocked).unsquashed = [(1, 1)]
    ∧ (squash_flowruncounts stLocked).squashed = [] := by
  decide

/-- C4 (amended): the squash task runs under the same lock-contention guard
as the sweepers, keyed `squash_flowruncounts`: if that lock is already held
the invocation is a no-op; only when it is free does the task collapse all
unsquashed per-flow increments into the aggregate rows, conserving each
flow's total. -/
theorem squash_flowruncounts_spec (s : State) :
    (s.locks.contains LOCK_SQUASH_FLOWRUNCOUNTS = true →
        squash_flowruncounts s = s)
    ∧ (s.locks.contains LOCK_SQUASH_FLOWRUNCOUNTS = false →
        (squash_flowruncounts s).unsquashed = []
        ∧ ∀ fid, lookupTotal (squash_flowruncounts s).squashed fid =
            lookupTotal s.squashed fid + lookupTotal s.unsquashed fid) := by
  refine ⟨fun h => ?_, fun h => ?_⟩
  · unfold squash_flowruncounts
    rw [if_pos h]
  · unfold squash_flowruncounts
    rw [if_neg (by rw [h]; exact Bool.false_ne_true)]
    exact ⟨rfl, fun fid => lookupTotal_squash_counts _ _ fid⟩

/-- Witness for C4 (amended) at a concrete state with the lock free: the
increments are emptied and flow 1's total is conserved. -/
theorem squash_flowruncounts_spec_witness :
    (squash_flowruncounts stCounts).unsquashed = []
    ∧ lookupTotal (squash_flowruncounts stCounts).squashed 1 =
        lookupTotal stCounts.squashed 1 + lookupTotal stCounts.unsquashed 1 :=
  ⟨((squash_flowruncounts_spec stCounts).2 (by decide)).1,
   ((squash_flowruncounts_spec stCounts).2 (by decide)).2 1⟩

/-- The publish loop publishes exactly the events of the due runs strictly
before the first failing one, and completes iff no due run fails. -/
theorem publishLoop_eq (fail : Nat → Bool) (l : List FlowRun) :
    publishLoop fail l =
      ((l.takeWhile (fun r => !fail r.id)).map timeoutEvent,
        l.all (fun r => !fail r.id)) := by
  induction l with
  | nil => rfl
  | cons r rest ih =>
      by_cases h : fail r.id
      · simp [publishLoop, List.takeWhile_cons, h]
      · simp [publishLoop, List.takeWhile_cons, h, ih]

/-- Counterexample to C5: at a concrete state with two due runs and the
publish call failing only for the first one, no event at all is published
— the other N−1 = 1 due run does not receive its event, because the
uncaught exception aborts the bare `for` loop. -/
theorem timeout_batch_abort_counterexample :
    (stFree.runs.filter (dueForTimeout 10)).length = 2
    ∧ (check_flow_timeouts_task_faulty (fun n => n == 1) stFree 10).1.events = []
    ∧ (check_flow_timeouts_task_faulty (fun n => n == 1) stFree 10).2 = false := by
  decide

/-- C5 (amended): a publish failure for one run aborts the remainder of
the sweep: exactly the due runs strictly before the first failing run (in
queryset order) have their events published, the failing run and all later
due runs get none, and the invocation only completes cleanly when no due
run's publish fails; run state is untouched, so unpublished runs stay due
for the next sweep. -/
theorem check_flow_timeouts_task_faulty_prefix (fail : Nat → Bool)
    (s : State) (now : Nat)
    (h : s.locks.contains LOCK_CHECK_FLOW_TIMEOUTS = false) :
    (check_flow_timeouts_task_faulty fail s now).1.events =
      s.events ++ ((s.runs.filter (dueForTimeout now)).takeWhile
        (fun r => !fail r.id)).map timeoutEvent
    ∧ ((check_flow_timeouts_task_faulty fail s now).2 =
        (s.runs.filter (dueForTimeout now)).all (fun r => !fail r.id))
    ∧ (check_flow_timeouts_task_faulty fail s now).1.runs = s.runs := by
  unfold check_flow_timeouts_task_faulty
  rw [if_neg (by rw [h]; exact Bool.false_ne_true)]
  simp [publishLoop_eq]

/-- Witness for C5 (amended) at a concrete state: with the second due run
failing, the first still gets its event and the sweep reports the abort. -/
theorem check_flow_timeouts_task_faulty_prefix_witness :
    (check_flow_timeouts_task_faulty (fun n => n == 2) stFree 10).1.events =
      [timeoutEvent runDue1]
    ∧ (check_flow_timeouts_task_faulty (fun n => n == 2) stFree 10).2 = false := by
  have h := check_flow_timeouts_task_faulty_prefix (fun n => n == 2) stFree 10
    (by decide)
  refine ⟨?_, ?_⟩
  · rw [h.1]; rfl
  · rw [h.2.1]; rfl

/-- Overwriting a cache entry makes later lookups of that flow return the
written value. -/
theorem cacheGet_cacheSet (c : List (Nat × Int)) (fid : Nat) (v : Int) :
    cacheGet (cacheSet c fid v) fid = some v := by
  induction c with
  | nil => simp [cacheSet, cacheGet]
  | cons p rest ih =>
      obtain ⟨g, w⟩ := p
      by_cases h : g = fid
      · subst h
        simp [cacheSet, cacheGet]
      · simp only [cacheSet, if_neg h]
        simpa [cacheGet, List.find?_cons, h] using ih

/-- The claim's reading of the authoritative count, stated from the spec's
words ("live runs excluding test contacts"), for comparison with
`runsStarted`, which follows the source and applies no liveness filter. -/
def spec_liveRunsStarted (runs : List FlowRun) (fid : Nat) : Nat :=
  (runs.filter (fun r =>
    r.flow_id = fid && r.is_active && !r.contact_is_test)).length

/-- A state with one inactive non-test run of flow 1 and no cache entry. -/
def stStale : State :=
  { runs := [runGone], locks := [], events := [], unsquashed := [],
    squashed := [], cache := [], logs := [], scheduled := [] }

/-- Counterexample to C6: at a concrete state whose only run of flow 1 is
inactive, the claim's authoritative count ("live runs excluding test
contacts") equals the cached value (0 = 0), so the claim says the task
writes nothing — yet the task does write the cache, because the source
counts all runs of the flow, active or not. -/
theorem calculate_flow_stats_live_counterexample :
    spec_liveRunsStarted stStale.runs 1 = 0
    ∧ cachedOrZero stStale.cache 1 = 0
    ∧ calculate_flow_stats_task stStale 1 ≠ stStale
    ∧ (calculate_flow_stats_task stStale 1).cache = [(1, 1)] := by
  decide

/-- C6 (amended): the recompute task reads the authoritative count — all
runs of the flow with non-test contacts, with no liveness filter — and the
cached value (absent read as 0) at invocation, and recomputes the cache if
and only if they differ at that re-check; when they are equal it writes
nothing at all. -/
theorem calculate_flow_stats_task_spec (s : State) (fid : Nat) :
    ((runsStarted s.runs fid : Int) = cachedOrZero s.cache fid ->
        calculate_flow_stats_task s fid = s)
    ∧ ((runsStarted s.runs fid : Int) ≠ cachedOrZero s.cache fid ->
        calculate_flow_stats_task s fid = do_calculate_flow_stats s fid
        ∧ cacheGet (calculate_flow_stats_task s fid).cache fid =
            some (runsStarted s.runs fid)) := by
  refine ⟨fun h => ?_, fun h => ?_⟩
  · show (if (runsStarted s.runs fid : Int) ≠ cachedOrZero s.cache fid
        then do_calculate_flow_stats s fid else s) = s
    rw [if_neg (not_not_intro h)]
  · have h1 : calculate_flow_stats_task s fid = do_calculate_flow_stats s fid := by
      show (if (runsStarted s.runs fid : Int) ≠ cachedOrZero s.cache fid
          then do_calculate_flow_stats s fid else s) = do_calculate_flow_stats s fid
      rw [if_pos h]
    refine ⟨h1, ?_⟩
    rw [h1]
    exact cacheGet_cacheSet s.cache fid _

/-- Witness for C6 (amended) at concrete states: a state where count and
cache agree is returned untouched, and one where they differ gets the
authoritative value written. -/
theorem calculate_flow_stats_task_spec_witness :
    calculate_flow_stats_task stCounts 1 = stCounts
    ∧ cacheGet (calculate_flow_stats_task stStale 1).cache 1 = some 1 :=
  ⟨(calculate_flow_stats_task_spec stCounts 1).1 (by decide),
   ((calculate_flow_stats_task_spec stStale 1).2 (by decide)).2⟩

/-- C7: the accuracy-check task never writes the cache; on mismatch
between the authoritative count and the cached value (absent read as 0) it
logs the discrepancy and schedules the separate recompute task, and when
they agree it changes nothing at all. -/
theorem check_flow_stats_accuracy_task_spec (s : State) (fid : Nat) :
    (check_flow_stats_accuracy_task s fid).cache = s.cache
    ∧ ((runsStarted s.runs fid : Int) ≠ cachedOrZero s.cache fid ->
        (check_flow_stats_accuracy_task s fid).logs =
          s.logs ++ [(fid, cachedOrZero s.cache fid,
            (runsStarted s.runs fid : Int))]
        ∧ (check_flow_stats_accuracy_task s fid).scheduled =
            s.scheduled ++ [fid])
    ∧ ((runsStarted s.runs fid : Int) = cachedOrZero s.cache fid ->
        check_flow_stats_accuracy_task s fid = s) := by
  have hpos : (runsStarted s.runs fid : Int) ≠ cachedOrZero s.cache fid ->
      check_flow_stats_accuracy_task s fid =
        { s with
          logs := s.logs ++ [(fid, cachedOrZero s.cache fid,
            (runsStarted s.runs fid : Int))]
          scheduled := s.scheduled ++ [fid] } := by
    intro h
    show (if (runsStarted s.runs fid : Int) ≠ cachedOrZero s.cache fid
        then { s with
          logs := s.logs ++ [(fid, cachedOrZero s.cache fid,
            (runsStarted s.runs fid : Int))]
          scheduled := s.scheduled ++ [fid] }
        else s) = _
    rw [if_pos h]
  have hneg : (runsStarted s.runs fid : Int) = cachedOrZero s.cache fid ->
      check_flow_stats_accuracy_task s fid = s := by
    intro h
    show (if (runsStarted s.runs fid : Int) ≠ cachedOrZero s.cache fid
        then { s with
          logs := s.logs ++ [(fid, cachedOrZero s.cache fid,
            (runsStarted s.runs fid : Int))]
          scheduled := s.scheduled ++ [fid] }
        else s) = s
    rw [if_neg (not_not_intro h)]
  refine ⟨?_, fun h => ?_, hneg⟩
  · by_cases h : (runsStarted s.runs fid : Int) = cachedOrZero s.cache fid
    · rw [hneg h]
    · rw [hpos h]
  · rw [hpos h]
    exact ⟨rfl, rfl⟩

/-- Witness for C7 at a concrete mismatching state: the cache is untouched
while the discrepancy is logged and a recompute is scheduled. -/
theorem check_flow_stats_accuracy_task_spec_witness :
    (check_flow_stats_accuracy_task stStale 1).cache = stStale.cache
    ∧ (check_flow_stats_accuracy_task stStale 1).scheduled =
        stStale.scheduled ++ [1] :=
  ⟨(check_flow_stats_accuracy_task_spec stStale 1).1,
   ((check_flow_stats_accuracy_task_spec stStale 1).2.1 (by decide)).2⟩

/-- C10: in both the accuracy-check task and the recompute task an absent
cache entry reads as a cached count of 0, so a flow with a positive
authoritative count and no cache entry is always treated as a mismatch:
the accuracy check logs it and schedules a recompute, and the recompute
task rebuilds the cache. -/
theorem absent_cache_reads_zero (s : State) (fid : Nat)
    (h1 : cacheGet s.cache fid = none)
    (h2 : 0 < runsStarted s.runs fid) :
    cachedOrZero s.cache fid = 0
    ∧ (check_flow_stats_accuracy_task s fid).logs =
        s.logs ++ [(fid, 0, (runsStarted s.runs fid : Int))]
    ∧ (check_flow_stats_accuracy_task s fid).scheduled = s.scheduled ++ [fid]
    ∧ calculate_flow_stats_task s fid = do_calculate_flow_stats s fid := by
  have hc : cachedOrZero s.cache fid = 0 := by
    unfold cachedOrZero
    rw [h1]
  have hne : (runsStarted s.runs fid : Int) ≠ cachedOrZero s.cache fid := by
    rw [hc]
    exact_mod_cast Nat.pos_iff_ne_zero.mp h2
  have hacc : check_flow_stats_accuracy_task s fid =
      { s with
        logs := s.logs ++ [(fid, cachedOrZero s.cache fid,
          (runsStarted s.runs fid : Int))]
        scheduled := s.scheduled ++ [fid] } := by
    show (if (runsStarted s.runs fid : Int) ≠ cachedOrZero s.cache fid
        then _ else s) = _
    rw [if_pos hne]
  have hcalc : calculate_flow_stats_task s fid = do_calculate_flow_stats s fid := by
    show (if (runsStarted s.runs fid : Int) ≠ cachedOrZero s.cache fid
        then do_calculate_flow_stats s fid else s) = do_calculate_flow_stats s fid
    rw [if_pos hne]
  refine ⟨hc, ?_, ?_, hcalc⟩
  · rw [hacc, hc]
  · rw [hacc]

/-- Witness for C10 at a concrete state with one non-test run of flow 1
and an empty cache store. -/
theorem absent_cache_reads_zero_witness :
    cachedOrZero stStale.cache 1 = 0
    ∧ (check_flow_stats_accuracy_task stStale 1).logs =
        stStale.logs ++ [(1, 0, (runsStarted stStale.runs 1 : Int))]
    ∧ (check_flow_stats_accuracy_task stStale 1).scheduled =
        stStale.scheduled ++ [1]
    ∧ calculate_flow_stats_task stStale 1 = do_calculate_flow_stats stStale 1 :=
  absent_cache_reads_zero stStale 1 (by decide) (by decide)

end RapidPro
